import Mathlib

/-!
Verification of the tic-tac-toe reinforcement-learning driver (`play.py`).

The driver is shallowly embedded as pure Lean functions:
* `plot_agent_reward` returns the series handed to the plotting backend;
* `GameLearning.init` models `GameLearning.__init__`, with the external world
  (file existence, the outcome of `pickle.load`, the stdin stream) supplied as
  an explicit `Env`; its observable effects are an explicit `Event` trace;
* `GameLearning.beginTeaching` and `playLoop` model the two episode loops;
* `mainRun` models the `__main__` block, asserts included.

The Q-learning agent itself lives in `agent.py`, which is not part of the
sources at hand; its update rule is modelled from the spec (see
`Qlearner.update`).  Python floats are embedded as rationals.
-/

/-- Canonical identifier of a board configuration (the Q-table state key). -/
abbrev StateKey := String

/-- A move index on the board. -/
abbrev Move := Nat

/-- Modelled from the spec: the `Qlearner` object from the missing `agent.py`.
It owns a value table mapping (state key, action) to an estimate (default 0
for unseen pairs), the hyperparameters `alpha`, `gamma`, `epsilon`, and the
per-episode reward history that the driver plots and persists. -/
structure Qlearner where
  alpha : ℚ
  gamma : ℚ
  epsilon : ℚ
  Q : StateKey → Move → ℚ
  rewards : List ℚ

/-- Modelled from the spec: the constructor `Qlearner(alpha, gamma, epsilon)`
called at `play.py:83` — a fresh agent with an all-zero value table and an
empty reward history. -/
def Qlearner.fresh (alpha gamma epsilon : ℚ) : Qlearner :=
  { alpha := alpha, gamma := gamma, epsilon := epsilon,
    Q := fun _ _ => 0, rewards := [] }

/-- Maximum of `f` over a list of actions, 0 when the list is empty. -/
def maxQ (f : Move → ℚ) (l : List Move) : ℚ :=
  (l.map f).foldr max 0

/-- Modelled from the spec: the Q-learning temporal-difference update
`Q(s,a) ← Q(s,a) + alpha * (reward + gamma * max Q(s2,·) * (1 - done) − Q(s,a))`,
where the max ranges over the actions legal at the successor state and the
future term is omitted on a terminal transition. -/
def Qlearner.update (ag : Qlearner) (s : StateKey) (a : Move) (reward : ℚ)
    (s2 : StateKey) (legal2 : List Move) (done : Bool) : Qlearner :=
  let future : ℚ := if done then 0 else ag.gamma * maxQ (ag.Q s2) legal2
  let newv : ℚ := ag.Q s a + ag.alpha * (reward + future - ag.Q s a)
  { ag with Q := fun s1 a1 => if s1 = s ∧ a1 = a then newv else ag.Q s1 a1 }

/-- One transition tuple fed to `Qlearner.update`. -/
structure UpdateArgs where
  s : StateKey
  a : Move
  reward : ℚ
  s2 : StateKey
  legal2 : List Move
  done : Bool

/-- Fold a sequence of transition tuples through `Qlearner.update`. -/
def applyUpdates (ag : Qlearner) (us : List UpdateArgs) : Qlearner :=
  us.foldl (fun b u => b.update u.s u.a u.reward u.s2 u.legal2 u.done) ag

theorem update_alpha (ag : Qlearner) (s : StateKey) (a : Move) (r : ℚ)
    (s2 : StateKey) (l2 : List Move) (d : Bool) :
    (ag.update s a r s2 l2 d).alpha = ag.alpha := rfl

theorem update_Q_alpha_zero (ag : Qlearner) (h : ag.alpha = 0)
    (s : StateKey) (a : Move) (r : ℚ) (s2 : StateKey) (l2 : List Move)
    (d : Bool) (s1 : StateKey) (a1 : Move) :
    (ag.update s a r s2 l2 d).Q s1 a1 = ag.Q s1 a1 := by
  unfold Qlearner.update
  simp only [h, zero_mul, add_zero]
  split
  · next heq => rw [heq.1, heq.2]
  · rfl

/-- The accumulation loop inside `plot_agent_reward` (`play.py:17-21`):
`total` starts at 0 and each episode reward is added and appended. -/
def cumulativeAux (total : ℚ) : List ℚ → List ℚ
  | [] => []
  | r :: rest => (total + r) :: cumulativeAux (total + r) rest

/-- The series that `plot_agent_reward` (`play.py:12-28`) hands to
`plt.plot`: the manually accumulated running sums of the reward list. -/
def plot_agent_reward (rewards : List ℚ) : List ℚ :=
  cumulativeAux 0 rewards

theorem cumulativeAux_length (total : ℚ) (l : List ℚ) :
    (cumulativeAux total l).length = l.length := by
  induction l generalizing total with
  | nil => rfl
  | cons r rest ih => simp [cumulativeAux, ih]

theorem cumulativeAux_getD (l : List ℚ) :
    ∀ (total : ℚ) (i : Nat), i < l.length →
      (cumulativeAux total l).getD i 0 = total + (l.take (i + 1)).sum := by
  induction l with
  | nil => intro total i hi; simp at hi
  | cons r rest ih =>
      intro total i hi
      cases i with
      | zero => simp [cumulativeAux]
      | succ i =>
          have hi' : i < rest.length := by simpa using hi
          simp only [cumulativeAux, List.getD_cons_succ, List.take_succ_cons,
            List.sum_cons]
          rw [ih (total + r) i hi']
          ring

/-- C5: the series `plot_agent_reward` renders is the running-sum transform
of the per-episode rewards: it has the same length as the input, and its
`i`-th entry is the sum of the first `i+1` rewards in order. -/
theorem plot_agent_reward_cumsum (rewards : List ℚ) :
    (plot_agent_reward rewards).length = rewards.length
    ∧ ∀ i : Nat, i < rewards.length →
        (plot_agent_reward rewards).getD i 0 = (rewards.take (i + 1)).sum := by
  constructor
  · exact cumulativeAux_length 0 rewards
  · intro i hi
    rw [plot_agent_reward, cumulativeAux_getD rewards 0 i hi, zero_add]

/-- Witness for C5 at the concrete reward list `[1, -2, 3]` and index 1. -/
theorem plot_agent_reward_cumsum_witness :
    (plot_agent_reward [1, -2, 3]).getD 1 0 = (([1, -2, 3] : List ℚ).take 2).sum :=
  (plot_agent_reward_cumsum [1, -2, 3]).2 1 (by norm_num)

/-- C6: with learning rate `alpha = 0` the Q-value update is a no-op — after
any sequence of transitions fed through `Qlearner.update`, every entry of the
value table is unchanged. -/
theorem alpha_zero_update_noop (ag : Qlearner) (h : ag.alpha = 0)
    (us : List UpdateArgs) (s : StateKey) (a : Move) :
    (applyUpdates ag us).Q s a = ag.Q s a := by
  induction us generalizing ag with
  | nil => rfl
  | cons u rest ih =>
      have halpha : (ag.update u.s u.a u.reward u.s2 u.legal2 u.done).alpha = 0 := by
        rw [update_alpha]; exact h
      calc (applyUpdates ag (u :: rest)).Q s a
          = (applyUpdates (ag.update u.s u.a u.reward u.s2 u.legal2 u.done) rest).Q s a := rfl
        _ = (ag.update u.s u.a u.reward u.s2 u.legal2 u.done).Q s a := ih _ halpha
        _ = ag.Q s a := update_Q_alpha_zero ag h u.s u.a u.reward u.s2 u.legal2 u.done s a

/-- Witness for C6: a concrete zero-alpha agent and one concrete transition. -/
theorem alpha_zero_update_noop_witness :
    (applyUpdates ⟨0, 9/10, 1/10, fun _ _ => 5, []⟩
      [⟨"k1", 1, 1, "k2", [0, 2], false⟩]).Q "k1" 1 = 5 :=
  alpha_zero_update_noop ⟨0, 9/10, 1/10, fun _ _ => 5, []⟩ rfl
    [⟨"k1", 1, 1, "k2", [0, 2], false⟩] "k1" 1

/-- Observable effects of a run of `play.py`. -/
inductive Event where
  | openRead (path : String)
  | printed (msg : String)
  | plotShown (series : List ℚ)
  | gamePlayed
  | savedAgent (path : String)
  deriving DecidableEq

/-- Outcome of `open(agent_path, "rb")` followed by `pickle.load(f)`:
success, an `IOError` (e.g. the file does not exist), or a
`pickle.UnpicklingError` on corrupt contents.  Only `IOError` is caught at
`play.py:58`. -/
inductive ReadOutcome where
  | ok (ag : Qlearner)
  | ioError
  | unpicklingError

/-- The external world as `play.py` observes it: whether a file already sits
at the agent path, what loading it would yield, the stdin lines available to
`input()`, and the effect of one `Game(...).start()` episode on the agent
(modelled from the spec: the game engine lives in the missing
`game_logic.py`; each episode reads and rewrites the agent's tables and
reward history). -/
structure Env where
  fileExists : Bool
  readOutcome : ReadOutcome
  inputs : List String
  playGame : Qlearner → Qlearner

/-- The parsed command-line flags `load`, `teacher_episodes`, `plot`. -/
structure Args where
  load : Bool
  teacher_episodes : Option Int
  plot : Bool

/-- `str.lower()` on the embedded strings. -/
def lower (s : String) : String := ⟨s.data.map Char.toLower⟩

/-- `response.lower() in ["y", "yes"]`. -/
def isYesResp (s : String) : Bool := lower s = "y" || lower s = "yes"

/-- `response.lower() in ["n", "no"]`. -/
def isNoResp (s : String) : Bool := lower s = "n" || lower s = "no"

/-- The `while True: response = input(...)` validation loop shared by the
overwrite prompt (`play.py:69-80`) and the play-again prompt
(`play.py:93-100`): consume stdin lines until one lowercases to y/yes
(`some (true, rest)`) or n/no (`some (false, rest)`), re-prompting on
anything else; `none` models `input()` hitting end of stream. -/
def promptYN : List String → Option (Bool × List String)
  | [] => none
  | r :: rest =>
      if isYesResp r then some (true, rest)
      else if isNoResp r then some (false, rest)
      else promptYN rest

theorem promptYN_length : ∀ {l : List String} {b : Bool} {rest : List String},
    promptYN l = some (b, rest) → rest.length < l.length := by
  intro l
  induction l with
  | nil => intro b rest h; simp [promptYN] at h
  | cons r tl ih =>
      intro b rest h
      rw [promptYN] at h
      by_cases h1 : isYesResp r
      · simp [h1] at h
        simp [h.2]
      · by_cases h2 : isNoResp r
        · simp [h1, h2] at h
          simp [h.2]
        · simp [h1, h2] at h
          exact Nat.lt_trans (ih h) (Nat.lt_succ_self _)

/-- The fixed path `"./trained_agent.pkl"` assigned at `play.py:51`. -/
def defaultAgentPath : String := "./trained_agent.pkl"

def msgNoAgentFile : String := "The agent file does not exist. Quitting."

def msgQuitting : String := "OK. Quitting."

def msgMustLoad : String := "Must load an agent to plot reward."

def msgNoPlotTeach : String := "Cannot plot and teach concurrently; must choose one or the other."

def eofMsg : String := "EOFError"

def unpicklingMsg : String := "UnpicklingError"

/-- The state of a constructed `GameLearning` object. -/
structure GameLearning where
  games_played : Nat
  agent_path : String
  agent : Qlearner

/-- Result of running `GameLearning.__init__`: a clean `sys.exit(0)`, an
uncaught exception, or a constructed object together with the stdin lines
not yet consumed. -/
inductive InitResult where
  | exit0 (events : List Event)
  | uncaught (events : List Event) (exn : String)
  | ready (events : List Event) (st : GameLearning) (restInputs : List String)

/-- Events emitted before the constructor returned or aborted. -/
def InitResult.events : InitResult → List Event
  | .exit0 evs => evs
  | .uncaught evs _ => evs
  | .ready evs _ _ => evs

/-- `GameLearning.__init__` (`play.py:49-83`).  With `--load`, the agent file
is opened and unpickled: an `IOError` is caught and the run exits cleanly
with a message, while corrupt contents raise an uncaught
`UnpicklingError`; a successful load followed by `--plot` renders the reward
history and exits.  Without `--load`, an existing file triggers the
overwrite prompt; only a yes answer (or no pre-existing file) constructs a
fresh `Qlearner`. -/
def GameLearning.init (args : Args) (env : Env) (alpha gamma epsilon : ℚ) :
    InitResult :=
  if args.load then
    match env.readOutcome with
    | .ioError =>
        .exit0 [Event.openRead defaultAgentPath, Event.printed msgNoAgentFile]
    | .unpicklingError =>
        .uncaught [Event.openRead defaultAgentPath] unpicklingMsg
    | .ok ag =>
        if args.plot then
          .exit0 [Event.openRead defaultAgentPath,
                  Event.plotShown (plot_agent_reward ag.rewards)]
        else
          .ready [Event.openRead defaultAgentPath]
            ⟨0, defaultAgentPath, ag⟩ env.inputs
  else
    if env.fileExists then
      match promptYN env.inputs with
      | none => .uncaught [] eofMsg
      | some (true, rest) =>
          .ready [] ⟨0, defaultAgentPath, Qlearner.fresh alpha gamma epsilon⟩ rest
      | some (false, _) => .exit0 [Event.printed msgQuitting]
    else
      .ready [] ⟨0, defaultAgentPath, Qlearner.fresh alpha gamma epsilon⟩ env.inputs

/-- `GameLearning(args)` with the default hyperparameters of `play.py:49`. -/
def GameLearning.initDefault (args : Args) (env : Env) : InitResult :=
  GameLearning.init args env 0.5 0.9 0.1

/-- The training loop of `GameLearning.beginTeaching` (`play.py:116-119`):
`while self.games_played < episodes`, one `Game(agent, teacher).start()` and
one increment per iteration.  Returns the final agent, the final
games-played count and the emitted events. -/
def teachLoop (playGame : Qlearner → Qlearner) (ag : Qlearner) (gp : Nat)
    (episodes : Int) : Qlearner × Nat × List Event :=
  if h : (gp : Int) < episodes then
    let res := teachLoop playGame (playGame ag) (gp + 1) episodes
    (res.1, res.2.1, Event.gamePlayed :: res.2.2)
  else
    (ag, gp, [])
termination_by (episodes - gp).toNat
decreasing_by omega

/-- `GameLearning.beginTeaching` (`play.py:110-126`): run the training loop,
then plot the agent's reward history and save the agent to the path fixed at
construction. -/
def GameLearning.beginTeaching (playGame : Qlearner → Qlearner)
    (st : GameLearning) (episodes : Int) : GameLearning × List Event :=
  let res := teachLoop playGame st.agent st.games_played episodes
  (⟨res.2.1, st.agent_path, res.1⟩,
   res.2.2 ++ [Event.plotShown (plot_agent_reward res.1.rewards),
               Event.savedAgent st.agent_path])

/-- Result of `GameLearning.beginPlaying`: final agent, final games-played
count, emitted events, and `some exn` if the run died on an exhausted stdin
stream rather than on an explicit no answer. -/
structure PlayRes where
  agent : Qlearner
  games_played : Nat
  events : List Event
  err : Option String

/-- The interactive loop of `GameLearning.beginPlaying` (`play.py:102-108`):
play one game, increment the count, then run the play-again prompt; a yes
answer loops, a no answer stops cleanly, end of stdin is an uncaught
`EOFError`. -/
def playLoop (playGame : Qlearner → Qlearner) (ag : Qlearner) (gp : Nat)
    (inputs : List String) : PlayRes :=
  match h : promptYN inputs with
  | none => ⟨playGame ag, gp + 1, [Event.gamePlayed], some eofMsg⟩
  | some (true, rest) =>
      let res := playLoop playGame (playGame ag) (gp + 1) rest
      ⟨res.agent, res.games_played, Event.gamePlayed :: res.events, res.err⟩
  | some (false, _) => ⟨playGame ag, gp + 1, [Event.gamePlayed], none⟩
termination_by inputs.length
decreasing_by exact promptYN_length h

/-- Outcome of the `__main__` block (`play.py:129-160`): an `AssertionError`
from the flag-compatibility checks, a normal completion, or an uncaught
exception, with the events observed along the way. -/
inductive RunResult where
  | configError (msg : String)
  | finished (events : List Event)
  | crashed (events : List Event) (exn : String)

/-- Events observed during a run; a `configError` aborts before any. -/
def eventsOf : RunResult → List Event
  | .configError _ => []
  | .finished evs => evs
  | .crashed evs _ => evs

/-- The `__main__` block of `play.py`: the two asserts guarding `--plot`
run first, then `GameLearning(args)` is constructed, then either
`beginTeaching` (when `teacher_episodes` was given) or `beginPlaying`. -/
def mainRun (args : Args) (env : Env) : RunResult :=
  if args.plot && !args.load then
    .configError msgMustLoad
  else if args.plot && args.teacher_episodes.isSome then
    .configError msgNoPlotTeach
  else
    match GameLearning.initDefault args env with
    | .exit0 evs => .finished evs
    | .uncaught evs exn => .crashed evs exn
    | .ready evs st rest =>
        match args.teacher_episodes with
        | some n =>
            let res := GameLearning.beginTeaching env.playGame st n
            .finished (evs ++ res.2)
        | none =>
            let res := playLoop env.playGame st.agent st.games_played rest
            match res.err with
            | some exn => .crashed (evs ++ res.events) exn
            | none => .finished (evs ++ res.events)

theorem teachLoop_eq (playGame : Qlearner → Qlearner) :
    ∀ (k : Nat) (ag : Qlearner) (gp : Nat),
      teachLoop playGame ag gp ((gp + k : Nat) : Int) =
        (playGame^[k] ag, gp + k, List.replicate k Event.gamePlayed) := by
  intro k
  induction k with
  | zero =>
      intro ag gp
      rw [teachLoop]
      simp
  | succ k ih =>
      intro ag gp
      rw [teachLoop]
      have h : (gp : Int) < ((gp + (k + 1) : Nat) : Int) := by push_cast; omega
      rw [dif_pos h]
      have hcast : ((gp + (k + 1) : Nat) : Int) = (((gp + 1) + k : Nat) : Int) := by
        push_cast; ring
      rw [hcast, ih (playGame ag) (gp + 1)]
      refine Prod.ext ?_ (Prod.ext ?_ ?_)
      · simp [Function.iterate_succ_apply]
      · simp; omega
      · simp [List.replicate_succ]

/-- C2: for every requested episode count `N`, `beginTeaching` starting from
a freshly constructed `GameLearning` (games-played count 0) plays exactly `N`
games, incrementing the count once per game, and only after the `N`-th game
renders the reward-history plot and then saves the agent — the full event
trace is `N` games followed by the plot and the save. -/
theorem beginTeaching_exact_episodes (playGame : Qlearner → Qlearner)
    (ag : Qlearner) (path : String) (N : Nat) :
    GameLearning.beginTeaching playGame ⟨0, path, ag⟩ (N : Int) =
      (⟨N, path, playGame^[N] ag⟩,
       List.replicate N Event.gamePlayed ++
         [Event.plotShown (plot_agent_reward (playGame^[N] ag).rewards),
          Event.savedAgent path]) := by
  have h0 : ((0 + N : Nat) : Int) = (N : Int) := by simp
  unfold GameLearning.beginTeaching
  simp only
  rw [show ((N : Int) = ((0 + N : Nat) : Int)) from h0.symm, teachLoop_eq]
  simp

theorem playLoop_shape (playGame : Qlearner → Qlearner) :
    ∀ (n : Nat) (inputs : List String), inputs.length ≤ n →
      ∀ (ag : Qlearner) (gp : Nat), ∃ k : Nat,
        (playLoop playGame ag gp inputs).events =
          List.replicate (k + 1) Event.gamePlayed
        ∧ (playLoop playGame ag gp inputs).games_played = gp + (k + 1) := by
  intro n
  induction n with
  | zero =>
      intro inputs hlen ag gp
      have hnil : inputs = [] := List.length_eq_zero.mp (Nat.le_zero.mp hlen)
      subst hnil
      rw [playLoop]
      exact ⟨0, rfl, rfl⟩
  | succ n ih =>
      intro inputs hlen ag gp
      rw [playLoop]
      rcases hp : promptYN inputs with _ | ⟨b, rest⟩
      · exact ⟨0, rfl, rfl⟩
      · cases b
        · exact ⟨0, rfl, rfl⟩
        · have hrest : rest.length ≤ n :=
            Nat.lt_succ_iff.mp (Nat.lt_of_lt_of_le (promptYN_length hp) hlen)
          obtain ⟨k, hev, hgp⟩ := ih rest hrest (playGame ag) (gp + 1)
          refine ⟨k + 1, ?_, ?_⟩
          · simp [hev, List.replicate_succ]
          · simp [hgp]; omega

/-- C7: interactive play loops whole episodes until the user declines — the
play-again prompt accepts a line lowercasing to y/yes (continue) or n/no
(stop), re-prompts on any other line without terminating the loop, and the
final games-played count exceeds the starting one by exactly the number of
completed games (one `gamePlayed` event per game). -/
theorem beginPlaying_loop_behavior :
    (∀ (r : String) (rest : List String), isYesResp r = false →
        isNoResp r = false → promptYN (r :: rest) = promptYN rest)
    ∧ (∀ (r : String) (rest : List String), isYesResp r = true →
        promptYN (r :: rest) = some (true, rest))
    ∧ (∀ (r : String) (rest : List String), isYesResp r = false →
        isNoResp r = true → promptYN (r :: rest) = some (false, rest))
    ∧ ∀ (playGame : Qlearner → Qlearner) (ag : Qlearner) (gp : Nat)
        (inputs : List String),
        (playLoop playGame ag gp inputs).games_played =
          gp + (playLoop playGame ag gp inputs).events.count Event.gamePlayed := by
  refine ⟨?_, ?_, ?_, ?_⟩
  · intro r rest h1 h2
    rw [promptYN]
    simp [h1, h2]
  · intro r rest h1
    rw [promptYN]
    simp [h1]
  · intro r rest h1 h2
    rw [promptYN]
    simp [h1, h2]
  · intro playGame ag gp inputs
    obtain ⟨k, hev, hgp⟩ :=
      playLoop_shape playGame inputs.length inputs (Nat.le_refl _) ag gp
    rw [hev, hgp, List.count_replicate_self]

/-- Witness for C7: a concrete rejected line, accepted lines, and a concrete
two-game session. -/
theorem beginPlaying_loop_behavior_witness :
    promptYN ["maybe", "n"] = promptYN ["n"]
    ∧ promptYN ["Y", "x"] = some (true, ["x"])
    ∧ promptYN ["No"] = some (false, [])
    ∧ (playLoop id (Qlearner.fresh 0 0 0) 0 ["y", "n"]).games_played =
        0 + (playLoop id (Qlearner.fresh 0 0 0) 0
              ["y", "n"]).events.count Event.gamePlayed :=
  ⟨beginPlaying_loop_behavior.1 "maybe" ["n"] (by decide) (by decide),
   beginPlaying_loop_behavior.2.1 "Y" ["x"] (by decide),
   beginPlaying_loop_behavior.2.2.1 "No" [] (by decide) (by decide),
   beginPlaying_loop_behavior.2.2.2 id (Qlearner.fresh 0 0 0) 0 ["y", "n"]⟩

/-- Counterexample to C1: with the load flag set and an agent file whose
contents are corrupt, `pickle.load` raises an `UnpicklingError`, which the
`except IOError` handler at `play.py:58` does not catch — the run crashes
with the raw deserialization error instead of exiting cleanly. -/
theorem corrupt_agent_file_crashes :
    mainRun ⟨true, none, false⟩
        ⟨true, ReadOutcome.unpicklingError, [], id⟩ =
      RunResult.crashed [Event.openRead defaultAgentPath] unpicklingMsg := rfl

/-- C1 (amended): with the load flag set, when opening or reading the agent
file fails with an I/O error (for example, the file does not exist), the run
prints a clear message and exits cleanly. -/
theorem missing_agent_file_exits_cleanly (te : Option Int) (env : Env)
    (h : env.readOutcome = ReadOutcome.ioError) :
    mainRun ⟨true, te, false⟩ env =
      RunResult.finished
        [Event.openRead defaultAgentPath, Event.printed msgNoAgentFile] := by
  unfold mainRun GameLearning.initDefault GameLearning.init
  simp [h]

/-- Witness for the amended C1 at a concrete environment. -/
theorem missing_agent_file_exits_cleanly_witness :
    mainRun ⟨true, none, false⟩ ⟨false, ReadOutcome.ioError, [], id⟩ =
      RunResult.finished
        [Event.openRead defaultAgentPath, Event.printed msgNoAgentFile] :=
  missing_agent_file_exits_cleanly none ⟨false, ReadOutcome.ioError, [], id⟩ rfl

/-- C3: requesting plotting together with training, or plotting without
loading, trips one of the two asserts at `play.py:150-154` before
`GameLearning(args)` runs — the run ends in a configuration error with an
explanatory message and an empty event trace (no agent state created, no
file touched). -/
theorem config_conflict_fails_fast (args : Args) (env : Env)
    (hplot : args.plot = true)
    (hconf : args.load = false ∨ args.teacher_episodes ≠ none) :
    (mainRun args env = RunResult.configError msgMustLoad
      ∨ mainRun args env = RunResult.configError msgNoPlotTeach)
    ∧ eventsOf (mainRun args env) = [] := by
  by_cases hl : args.load = false
  · have hm : mainRun args env = RunResult.configError msgMustLoad := by
      unfold mainRun
      simp [hplot, hl]
    exact ⟨Or.inl hm, by rw [hm]; rfl⟩
  · have hl' : args.load = true := by
      cases h : args.load
      · exact absurd h hl
      · rfl
    have ht : args.teacher_episodes ≠ none := hconf.resolve_left (by simp [hl'])
    have hsome : args.teacher_episodes.isSome = true :=
      Option.ne_none_iff_isSome.mp ht
    have hm : mainRun args env = RunResult.configError msgNoPlotTeach := by
      unfold mainRun
      simp [hplot, hl', hsome]
    exact ⟨Or.inr hm, by rw [hm]; rfl⟩

/-- Witness for C3: plotting requested without loading. -/
theorem config_conflict_fails_fast_witness :
    (mainRun ⟨false, none, true⟩ ⟨false, ReadOutcome.ioError, [], id⟩ =
        RunResult.configError msgMustLoad
      ∨ mainRun ⟨false, none, true⟩ ⟨false, ReadOutcome.ioError, [], id⟩ =
        RunResult.configError msgNoPlotTeach)
    ∧ eventsOf (mainRun ⟨false, none, true⟩ ⟨false, ReadOutcome.ioError, [], id⟩) = [] :=
  config_conflict_fails_fast ⟨false, none, true⟩ ⟨false, ReadOutcome.ioError, [], id⟩
    rfl (Or.inl rfl)

/-- C4: in load-and-plot mode the run loads the agent, renders the
cumulative reward history and exits — the whole event trace is the file
read followed by the plot; no game is played and the agent file is never
written. -/
theorem load_and_plot_exits_without_playing (env : Env) (ag : Qlearner)
    (h : env.readOutcome = ReadOutcome.ok ag) :
    mainRun ⟨true, none, true⟩ env =
      RunResult.finished
        [Event.openRead defaultAgentPath,
         Event.plotShown (plot_agent_reward ag.rewards)]
    ∧ Event.gamePlayed ∉ eventsOf (mainRun ⟨true, none, true⟩ env)
    ∧ ∀ q : String,
        Event.savedAgent q ∉ eventsOf (mainRun ⟨true, none, true⟩ env) := by
  have hm : mainRun ⟨true, none, true⟩ env =
      RunResult.finished
        [Event.openRead defaultAgentPath,
         Event.plotShown (plot_agent_reward ag.rewards)] := by
    unfold mainRun GameLearning.initDefault GameLearning.init
    simp [h]
  refine ⟨hm, ?_, ?_⟩
  · rw [hm]; simp [eventsOf]
  · intro q; rw [hm]; simp [eventsOf]

/-- Witness for C4 at a concrete loaded agent. -/
theorem load_and_plot_exits_without_playing_witness :
    mainRun ⟨true, none, true⟩
        ⟨true, ReadOutcome.ok (Qlearner.fresh 0 0 0), [], id⟩ =
      RunResult.finished
        [Event.openRead defaultAgentPath,
         Event.plotShown (plot_agent_reward (Qlearner.fresh 0 0 0).rewards)]
    ∧ Event.gamePlayed ∉ eventsOf (mainRun ⟨true, none, true⟩
        ⟨true, ReadOutcome.ok (Qlearner.fresh 0 0 0), [], id⟩)
    ∧ ∀ q : String, Event.savedAgent q ∉ eventsOf (mainRun ⟨true, none, true⟩
        ⟨true, ReadOutcome.ok (Qlearner.fresh 0 0 0), [], id⟩) :=
  load_and_plot_exits_without_playing
    ⟨true, ReadOutcome.ok (Qlearner.fresh 0 0 0), [], id⟩
    (Qlearner.fresh 0 0 0) rfl

/-- C8: a `GameLearning` constructed without explicit hyperparameter
arguments (the fresh-agent branch) hands its new `Qlearner` the defaults
alpha = 0.5, gamma = 0.9, epsilon = 0.1, and these satisfy the required
ranges 0 < alpha ≤ 1, 0 ≤ gamma ≤ 1, 0 ≤ epsilon ≤ 1. -/
theorem default_hyperparameters (args : Args) (env : Env)
    (hl : args.load = false) (hf : env.fileExists = false) :
    GameLearning.initDefault args env =
      InitResult.ready [] ⟨0, defaultAgentPath, Qlearner.fresh 0.5 0.9 0.1⟩
        env.inputs
    ∧ (0.5 : ℚ) = 1 / 2 ∧ (0.9 : ℚ) = 9 / 10 ∧ (0.1 : ℚ) = 1 / 10
    ∧ (0 < (0.5 : ℚ) ∧ (0.5 : ℚ) ≤ 1)
    ∧ (0 ≤ (0.9 : ℚ) ∧ (0.9 : ℚ) ≤ 1)
    ∧ (0 ≤ (0.1 : ℚ) ∧ (0.1 : ℚ) ≤ 1) := by
  refine ⟨?_, by norm_num, by norm_num, by norm_num,
    ⟨by norm_num, by norm_num⟩, ⟨by norm_num, by norm_num⟩,
    ⟨by norm_num, by norm_num⟩⟩
  unfold GameLearning.initDefault GameLearning.init
  simp [hl, hf]

/-- Witness for C8 at concrete flags and environment. -/
theorem default_hyperparameters_witness :
    GameLearning.initDefault ⟨false, none, false⟩
        ⟨false, ReadOutcome.ioError, [], id⟩ =
      InitResult.ready [] ⟨0, defaultAgentPath, Qlearner.fresh 0.5 0.9 0.1⟩ []
    ∧ (0.5 : ℚ) = 1 / 2 ∧ (0.9 : ℚ) = 9 / 10 ∧ (0.1 : ℚ) = 1 / 10
    ∧ (0 < (0.5 : ℚ) ∧ (0.5 : ℚ) ≤ 1)
    ∧ (0 ≤ (0.9 : ℚ) ∧ (0.9 : ℚ) ≤ 1)
    ∧ (0 ≤ (0.1 : ℚ) ∧ (0.1 : ℚ) ≤ 1) :=
  default_hyperparameters ⟨false, none, false⟩
    ⟨false, ReadOutcome.ioError, [], id⟩ rfl rfl

/-- C10: without the load flag and with an agent file already present, the
constructor runs the overwrite prompt: it skips any line that is neither
y/yes nor n/no and asks again; on n/no it exits cleanly having emitted only
the quit message — no agent is constructed and nothing is written; only on
y/yes does it return a ready state holding a fresh `Qlearner`. -/
theorem overwrite_prompt_behavior :
    (∀ (r : String) (rest : List String), isYesResp r = false →
        isNoResp r = false → promptYN (r :: rest) = promptYN rest)
    ∧ (∀ (args : Args) (env : Env) (alpha gamma epsilon : ℚ)
        (rest : List String), args.load = false → env.fileExists = true →
        promptYN env.inputs = some (false, rest) →
        GameLearning.init args env alpha gamma epsilon =
          InitResult.exit0 [Event.printed msgQuitting]
        ∧ ∀ q : String, Event.savedAgent q ∉
            (GameLearning.init args env alpha gamma epsilon).events)
    ∧ ∀ (args : Args) (env : Env) (alpha gamma epsilon : ℚ)
        (rest : List String), args.load = false → env.fileExists = true →
        promptYN env.inputs = some (true, rest) →
        GameLearning.init args env alpha gamma epsilon =
          InitResult.ready []
            ⟨0, defaultAgentPath, Qlearner.fresh alpha gamma epsilon⟩ rest := by
  refine ⟨?_, ?_, ?_⟩
  · intro r rest h1 h2
    rw [promptYN]
    simp [h1, h2]
  · intro args env alpha gamma epsilon rest hl hf hp
    have hm : GameLearning.init args env alpha gamma epsilon =
        InitResult.exit0 [Event.printed msgQuitting] := by
      unfold GameLearning.init
      simp [hl, hf, hp]
    refine ⟨hm, ?_⟩
    intro q
    rw [hm]
    simp [InitResult.events]
  · intro args env alpha gamma epsilon rest hl hf hp
    unfold GameLearning.init
    simp [hl, hf, hp]

/-- Witness for C10: a concrete session that first types an invalid line and
then declines, and one that accepts. -/
theorem overwrite_prompt_behavior_witness :
    promptYN ["zz", "n"] = promptYN ["n"]
    ∧ (GameLearning.init ⟨false, none, false⟩
          ⟨true, ReadOutcome.ioError, ["zz", "n"], id⟩ 1 1 1 =
        InitResult.exit0 [Event.printed msgQuitting]
       ∧ ∀ q : String, Event.savedAgent q ∉
          (GameLearning.init ⟨false, none, false⟩
            ⟨true, ReadOutcome.ioError, ["zz", "n"], id⟩ 1 1 1).events)
    ∧ GameLearning.init ⟨false, none, false⟩
          ⟨true, ReadOutcome.ioError, ["YES"], id⟩ 1 1 1 =
        InitResult.ready [] ⟨0, defaultAgentPath, Qlearner.fresh 1 1 1⟩ [] :=
  ⟨overwrite_prompt_behavior.1 "zz" ["n"] (by decide) (by decide),
   overwrite_prompt_behavior.2.1 ⟨false, none, false⟩
     ⟨true, ReadOutcome.ioError, ["zz", "n"], id⟩ 1 1 1 [] rfl rfl (by decide),
   overwrite_prompt_behavior.2.2 ⟨false, none, false⟩
     ⟨true, ReadOutcome.ioError, ["YES"], id⟩ 1 1 1 [] rfl rfl (by decide)⟩

theorem init_openRead_path (args : Args) (env : Env) (a g e : ℚ) (p : String)
    (hmem : Event.openRead p ∈ (GameLearning.init args env a g e).events) :
    p = defaultAgentPath := by
  unfold GameLearning.init at hmem
  repeat' split at hmem
  all_goals simp [InitResult.events] at hmem
  all_goals exact hmem

theorem init_no_save (args : Args) (env : Env) (a g e : ℚ) (p : String) :
    Event.savedAgent p ∉ (GameLearning.init args env a g e).events := by
  unfold GameLearning.init
  repeat' split
  all_goals simp [InitResult.events]

theorem init_ready_path (args : Args) (env : Env) (a g e : ℚ)
    (evs : List Event) (st : GameLearning) (rest : List String)
    (h : GameLearning.init args env a g e = InitResult.ready evs st rest) :
    st.agent_path = defaultAgentPath := by
  unfold GameLearning.init at h
  repeat' split at h
  all_goals first
    | (injection h with h1 h2 h3
       rw [← h2])
    | injection h

theorem teachLoop_events_sub (playGame : Qlearner → Qlearner) :
    ∀ (k : Nat) (ag : Qlearner) (gp : Nat) (episodes : Int),
      (episodes - gp).toNat ≤ k →
      ∀ ev ∈ (teachLoop playGame ag gp episodes).2.2, ev = Event.gamePlayed := by
  intro k
  induction k with
  | zero =>
      intro ag gp episodes hle ev hmem
      rw [teachLoop, dif_neg (by omega)] at hmem
      simp at hmem
  | succ k ih =>
      intro ag gp episodes hle ev hmem
      rw [teachLoop] at hmem
      by_cases h : (gp : Int) < episodes
      · rw [dif_pos h] at hmem
        simp only [List.mem_cons] at hmem
        rcases hmem with h1 | h1
        · exact h1
        · exact ih (playGame ag) (gp + 1) episodes (by omega) ev h1
      · rw [dif_neg h] at hmem
        simp at hmem

theorem playLoop_events_gamePlayed (playGame : Qlearner → Qlearner)
    (ag : Qlearner) (gp : Nat) (inputs : List String) :
    ∀ ev ∈ (playLoop playGame ag gp inputs).events, ev = Event.gamePlayed := by
  intro ev hmem
  obtain ⟨k, hev, _⟩ :=
    playLoop_shape playGame inputs.length inputs (Nat.le_refl _) ag gp
  rw [hev] at hmem
  exact List.eq_of_mem_replicate hmem

/-- C9: every file access of a run uses the single fixed path
`./trained_agent.pkl` set at construction — every `openRead` and every
`savedAgent` event in any run's trace carries exactly that path, whatever
the flags and environment. -/
theorem agent_path_fixed (args : Args) (env : Env) (p : String)
    (h : Event.openRead p ∈ eventsOf (mainRun args env)
       ∨ Event.savedAgent p ∈ eventsOf (mainRun args env)) :
    p = defaultAgentPath := by
  by_cases h1 : (args.plot && !args.load) = true
  · have hm : mainRun args env = RunResult.configError msgMustLoad := by
      unfold mainRun
      rw [if_pos h1]
    rw [hm] at h
    simp [eventsOf] at h
  · by_cases h2 : (args.plot && args.teacher_episodes.isSome) = true
    · have hm : mainRun args env = RunResult.configError msgNoPlotTeach := by
        unfold mainRun
        rw [if_neg h1, if_pos h2]
      rw [hm] at h
      simp [eventsOf] at h
    · rcases hinit : GameLearning.initDefault args env with evs | ⟨evs, exn⟩ | ⟨evs, st, rest⟩
      · have hm : mainRun args env = RunResult.finished evs := by
          unfold mainRun
          rw [if_neg h1, if_neg h2, hinit]
        rw [hm] at h
        have hev : evs = (GameLearning.initDefault args env).events := by
          rw [hinit]
          rfl
        rw [hev] at h
        rcases h with h | h
        · exact init_openRead_path args env 0.5 0.9 0.1 p h
        · exact absurd h (init_no_save args env 0.5 0.9 0.1 p)
      · have hm : mainRun args env = RunResult.crashed evs exn := by
          unfold mainRun
          rw [if_neg h1, if_neg h2, hinit]
        rw [hm] at h
        have hev : evs = (GameLearning.initDefault args env).events := by
          rw [hinit]
          rfl
        rw [hev] at h
        rcases h with h | h
        · exact init_openRead_path args env 0.5 0.9 0.1 p h
        · exact absurd h (init_no_save args env 0.5 0.9 0.1 p)
      · have hev : evs = (GameLearning.initDefault args env).events := by
          rw [hinit]
          rfl
        have hpath : st.agent_path = defaultAgentPath :=
          init_ready_path args env 0.5 0.9 0.1 evs st rest hinit
        rcases hte : args.teacher_episodes with _ | n
        · have hm : mainRun args env =
              (let res := playLoop env.playGame st.agent st.games_played rest
               match res.err with
               | some exn => RunResult.crashed (evs ++ res.events) exn
               | none => RunResult.finished (evs ++ res.events)) := by
            unfold mainRun
            rw [if_neg h1, if_neg h2, hinit, hte]
          rw [hm] at h
          rcases herr : (playLoop env.playGame st.agent st.games_played rest).err with _ | exn
          all_goals simp only [herr] at h
          all_goals rw [eventsOf] at h
          all_goals rcases h with h | h
          all_goals rw [List.mem_append] at h
          all_goals rcases h with h | h
          · exact init_openRead_path args env 0.5 0.9 0.1 p (hev ▸ h)
          · exact absurd (playLoop_events_gamePlayed env.playGame st.agent
              st.games_played rest _ h) (by simp)
          · exact absurd (hev ▸ h) (init_no_save args env 0.5 0.9 0.1 p)
          · exact absurd (playLoop_events_gamePlayed env.playGame st.agent
              st.games_played rest _ h) (by simp)
          · exact init_openRead_path args env 0.5 0.9 0.1 p (hev ▸ h)
          · exact absurd (playLoop_events_gamePlayed env.playGame st.agent
              st.games_played rest _ h) (by simp)
          · exact absurd (hev ▸ h) (init_no_save args env 0.5 0.9 0.1 p)
          · exact absurd (playLoop_events_gamePlayed env.playGame st.agent
              st.games_played rest _ h) (by simp)
        · have hm : mainRun args env =
              RunResult.finished
                (evs ++ (GameLearning.beginTeaching env.playGame st n).2) := by
            unfold mainRun
            rw [if_neg h1, if_neg h2, hinit, hte]
          rw [hm, eventsOf] at h
          unfold GameLearning.beginTeaching at h
          simp only [List.append_assoc, List.mem_append, List.mem_cons,
            List.mem_singleton] at h
          rcases h with (h | h | h) | (h | h | h)
          · exact init_openRead_path args env 0.5 0.9 0.1 p (hev ▸ h)
          · exact absurd (teachLoop_events_sub env.playGame
              ((n - st.games_played).toNat) st.agent st.games_played n
              (Nat.le_refl _) _ h) (by simp)
          · simp at h
          · exact absurd (hev ▸ h) (init_no_save args env 0.5 0.9 0.1 p)
          · exact absurd (teachLoop_events_sub env.playGame
              ((n - st.games_played).toNat) st.agent st.games_played n
              (Nat.le_refl _) _ h) (by simp)
          · rw [hpath] at h
            simp at h
            exact h

/-- Witness for C9: the file read performed by a concrete load run carries
the fixed path. -/
theorem agent_path_fixed_witness :
    "./trained_agent.pkl" = defaultAgentPath :=
  agent_path_fixed ⟨true, none, false⟩ ⟨false, ReadOutcome.ioError, [], id⟩
    "./trained_agent.pkl" (Or.inl (by decide))
